import Mathlib

/-!
A shallow embedding of the go-mongodb repository: the scalar wrapper-type
codecs (types/objectid.go, types/uuid.go, types/number.go, types/string.go,
the Binary datatype) and the connector facade (connector.go), together with
theorems settling the specification's claims about them.

Modelling conventions:
* Go bytes are `Nat` values below 256, Go strings are `String`, Go `int32`,
  `int64` are `Int` (range side conditions stated where they matter), Go
  `float64`/`float32` values are rationals, with the IEEE-754
  round-to-nearest-even conversions made explicit.
* A fallible pure Go function returns `Except GoErr _`.
* A Go unmarshal method with pointer receiver `*T` is a function from the old
  destination value and the input to `GoRet T`: the new destination value, or
  the returned error together with the destination value left behind, or a
  runtime panic.
* The JSON side is modelled by the `Json` value inductive (null / string /
  number); a BSON value is a type-tag byte together with a `BVal` payload,
  which renders the driver's value encoding semantically (the subtype byte of
  a binary value is explicit, since the wrapper types branch on it).
-/

/-- Errors surfaced by the embedded code; each constructor corresponds to one
`errors.New`/library error value in the Go source or its libraries. -/
inductive GoErr : Type where
  | invalidHex
  | hexOddLength
  | invalidByte (c : Char)
  | wrongTypeObjectId
  | wrongTypeBinary
  | wrongSubtypeUuid
  | wrongSubtypeGeneric
  | invalidUuidLength (n : ℕ)
  | invalidUuidFormat
  | invalidUrnPrefix
  | uuidByteLength (n : ℕ)
  | jsonTypeError
  | jsonRangeError
  | jsonUnsupportedValue
  | base64CorruptInput
  | bsonDecodeError
  | noCollectionSet
  | unknownReturnType
  deriving DecidableEq, Repr

/-- The Go error message carried by each error value (connector.go and
types/*.go use `errors.New` with these literal texts; library errors are
abbreviated to their stable prefix). -/
def GoErr.message : GoErr → String
  | .invalidHex => "the provided hex string is not a valid ObjectID"
  | .hexOddLength => "encoding/hex: odd length hex string"
  | .invalidByte _ => "encoding/hex: invalid byte"
  | .wrongTypeObjectId => "wrong bson type expected objectid"
  | .wrongTypeBinary => "wrong bson type expected binary"
  | .wrongSubtypeUuid => "wrong subtype"
  | .wrongSubtypeGeneric => "wrong bson subtype expected generic"
  | .invalidUuidLength n => "invalid UUID length: " ++ toString n
  | .invalidUuidFormat => "invalid UUID format"
  | .invalidUrnPrefix => "invalid urn prefix"
  | .uuidByteLength n => "invalid UUID (got " ++ toString n ++ " bytes)"
  | .jsonTypeError => "json: cannot unmarshal value into destination type"
  | .jsonRangeError => "json: number out of range"
  | .jsonUnsupportedValue => "json: unsupported value"
  | .base64CorruptInput => "illegal base64 data at input byte"
  | .bsonDecodeError => "bson: value does not decode"
  | .noCollectionSet => "no collection set"
  | .unknownReturnType => "unknown return type"

/-- A JSON value, as far as the wrapper types produce or consume one
(documents and arrays never reach the wrapper-level codecs). -/
inductive Json : Type where
  | null
  | str (s : String)
  | num (q : ℚ)
  deriving DecidableEq, Repr

/-- The payload of a BSON value, rendered semantically.  The driver's byte
framing is not spelled out, but everything the wrapper types branch on (the
type tag, a binary value's subtype byte, the raw payload bytes) is explicit.
`dbl none` stands for a non-finite double. -/
inductive BVal : Type where
  | bytes (bs : List ℕ)
  | bin (sub : ℕ) (data : List ℕ)
  | str (s : String)
  | i32 (n : ℤ)
  | i64 (n : ℤ)
  | dbl (x : Option ℚ)
  deriving DecidableEq, Repr

/-- Outcome of a Go unmarshal method with a pointer receiver: the destination
value afterwards, or the returned error together with the destination value
it left, or a runtime panic. -/
inductive GoRet (α : Type) : Type where
  | ok (dest : α)
  | err (e : GoErr) (dest : α)
  | panicked
  deriving DecidableEq, Repr

deriving instance DecidableEq for Except

def bsonTypeDouble : ℕ := 1
def bsonTypeString : ℕ := 2
def bsonTypeBinary : ℕ := 5
def bsonTypeObjectID : ℕ := 7
def bsonTypeNull : ℕ := 10
def bsonTypeInt32 : ℕ := 16
def bsonTypeInt64 : ℕ := 18

/-- BSON binary subtype `bson.TypeBinaryGeneric`. -/
def binaryGeneric : ℕ := 0

/-- BSON binary subtype `bson.TypeBinaryUUID`. -/
def binaryUUID : ℕ := 4

/-- The null BSON value returned by every `MarshalBSONValue` empty branch:
`(byte(bson.TypeNull), nil, nil)`. -/
def bsonNullValue : ℕ × BVal := (bsonTypeNull, .bytes [])

/-- encoding/hex `fromHexChar`: the value of one hex digit (upper or lower
case accepted). -/
def fromHexChar (c : Char) : Option ℕ :=
  if '0' ≤ c ∧ c ≤ '9' then some (c.toNat - '0'.toNat)
  else if 'a' ≤ c ∧ c ≤ 'f' then some (c.toNat - 'a'.toNat + 10)
  else if 'A' ≤ c ∧ c ≤ 'F' then some (c.toNat - 'A'.toNat + 10)
  else none

/-- The lower-case hex digit for a value below 16 (encoding/hex alphabet). -/
def hexDigit (n : ℕ) : Char :=
  "0123456789abcdef".toList.getD n '0'

/-- The two lower-case hex digits of one byte. -/
def hexByte (n : ℕ) : List Char :=
  [hexDigit (n / 16), hexDigit (n % 16)]

/-- Lower-case hex rendering of a byte sequence (`hex.EncodeToString`,
used by the driver's `ObjectID.Hex`). -/
def hexChars (bs : List ℕ) : List Char :=
  bs.foldr (fun b acc => hexByte b ++ acc) []

/-- encoding/hex `Decode`: pairs of hex digits to bytes, reporting the first
offending byte. -/
def hexDecodeList : List Char → Except GoErr (List ℕ)
  | [] => .ok []
  | [_] => .error .hexOddLength
  | c1 :: c2 :: rest =>
    match fromHexChar c1 with
    | none => .error (.invalidByte c1)
    | some a =>
      match fromHexChar c2 with
      | none => .error (.invalidByte c2)
      | some b =>
        match hexDecodeList rest with
        | .error e => .error e
        | .ok bs => .ok ((a * 16 + b) :: bs)

/-- An ObjectId of the repository: its textual lower-case 24-char hex form
(`type ObjectId string`). -/
abbrev ObjectId := String

def NilObjectID : ObjectId := "000000000000000000000000"

/-- Driver `bson.ObjectIDFromHex`, yielding the 12 raw bytes: exactly 24
characters, all hex digits. -/
def objectIDFromHexBytes (s : String) : Except GoErr (List ℕ) :=
  if s.length = 24 then hexDecodeList s.toList
  else .error .invalidHex

/-- Driver `ObjectID.Hex`: canonical lower-case rendering of 12 bytes. -/
def objectIDHex (bs : List ℕ) : String :=
  String.mk (hexChars bs)

/-- Repository `ObjectIdFromHex`: validate and canonicalize. -/
def ObjectIdFromHex (s : String) : Except GoErr ObjectId :=
  match objectIDFromHexBytes s with
  | .error e => .error e
  | .ok b => .ok (objectIDHex b)

/-- `ObjectId.IsZero`: true iff the textual length is zero. -/
def ObjectId.IsZero (o : ObjectId) : Bool :=
  o.length == 0

/-- `ObjectId.String`: "null" when zero, else the hex wrapped in ObjectID(...). -/
def ObjectId.goString (o : ObjectId) : String :=
  if ObjectId.IsZero o then "null"
  else "ObjectID(" ++ o ++ ")"

/-- `ObjectId.MarshalJSON`: null when empty or equal to the all-zero
sentinel, else the hex string. -/
def ObjectId.MarshalJSON (o : ObjectId) : Except GoErr Json :=
  if o.length = 0 then .ok .null
  else if o = NilObjectID then .ok .null
  else .ok (.str o)

/-- `json.Unmarshal(data, &s)` into a fresh string variable: null leaves the
variable at its zero value, a string yields its contents, any other kind is a
type error. -/
def jsonUnmarshalString (j : Json) : Except GoErr String :=
  match j with
  | .null => .ok ""
  | .str s => .ok s
  | .num _ => .error .jsonTypeError

/-- `ObjectId.UnmarshalJSON`. -/
def ObjectId.UnmarshalJSON (o : ObjectId) (j : Json) : GoRet ObjectId :=
  match jsonUnmarshalString j with
  | .error e => .err e o
  | .ok hexStr =>
    if hexStr.length = 0 then .ok ""
    else
      match objectIDFromHexBytes hexStr with
      | .error e => .err e o
      | .ok oid => .ok (objectIDHex oid)

/-- `ObjectId.MarshalBSONValue`: null type when empty, a parse error when the
hex is malformed, null type again when the parsed bytes are the all-zero
sentinel, else a native object-id value. -/
def ObjectId.MarshalBSONValue (o : ObjectId) : Except GoErr (ℕ × BVal) :=
  if o.length = 0 then .ok bsonNullValue
  else
    match objectIDFromHexBytes o with
    | .error e => .error e
    | .ok oid =>
      if oid = List.replicate 12 0 then .ok bsonNullValue
      else .ok (bsonTypeObjectID, .bytes oid)

/-- `ObjectId.UnmarshalBSONValue`.  The conversion `bson.ObjectID(data)` is a
Go slice-to-array conversion: it panics when the payload holds fewer than 12
bytes and otherwise takes the first 12. -/
def ObjectId.UnmarshalBSONValue (o : ObjectId) (typ : ℕ) (data : List ℕ) :
    GoRet ObjectId :=
  if typ = bsonTypeNull then .ok ""
  else if typ ≠ bsonTypeObjectID then .err .wrongTypeObjectId o
  else if data.length < 12 then .panicked
  else .ok (objectIDHex (data.take 12))

example : ObjectId.MarshalJSON ("6555d2cc4fce49f464c2f683") =
    .ok (.str ("6555d2cc4fce49f464c2f683")) := by decide
example : ObjectId.MarshalJSON NilObjectID = .ok .null := by decide
example : ObjectId.UnmarshalJSON ("") (.str ("f47ac10b")) =
    .err .invalidHex ("") := by decide
example : ObjectIdFromHex ("6555D2CC4FCE49F464C2F683") =
    .ok ("6555d2cc4fce49f464c2f683") := by decide

/-- C8: `ObjectId.IsZero` is true iff the textual length is zero, and the
display function renders "null" exactly when zero, else the hex wrapped in
the type-name tag; hence the all-zero sentinel is not zero and does not
display as "null". -/
theorem c8_objectid_iszero_display (o : ObjectId) :
    (ObjectId.IsZero o = true ↔ o.length = 0) ∧
    (o.length = 0 → ObjectId.goString o = "null") ∧
    (o.length ≠ 0 → ObjectId.goString o = "ObjectID(" ++ o ++ ")") ∧
    ObjectId.IsZero NilObjectID = false ∧
    ObjectId.goString NilObjectID ≠ "null" := by
  refine ⟨?_, ?_, ?_, by decide, by decide⟩
  · simp [ObjectId.IsZero]
  · intro h
    simp [ObjectId.goString, ObjectId.IsZero, h]
  · intro h
    simp [ObjectId.goString, ObjectId.IsZero, h]

theorem c8_objectid_iszero_display_witness :
    ObjectId.goString ("6555d2cc4fce49f464c2f683") =
      "ObjectID(6555d2cc4fce49f464c2f683)" ∧
    ObjectId.goString ("") = "null" :=
  ⟨(c8_objectid_iszero_display ("6555d2cc4fce49f464c2f683")).2.2.1 (by decide),
   (c8_objectid_iszero_display ("")).2.1 (by decide)⟩

/-- C9: BSON decoding of an object-id-tagged value does not check the payload
length; every payload shorter than 12 bytes makes the slice-to-array
conversion panic, so the decode is not a total error-returning function. -/
theorem c9_objectid_decode_short_payload_panics (o : ObjectId) (bs : List ℕ)
    (h : bs.length < 12) :
    ObjectId.UnmarshalBSONValue o bsonTypeObjectID bs = .panicked := by
  simp [ObjectId.UnmarshalBSONValue, bsonTypeObjectID, bsonTypeNull, h]

theorem c9_objectid_decode_short_payload_panics_witness :
    ObjectId.UnmarshalBSONValue ("") bsonTypeObjectID [1, 2, 3] = .panicked :=
  c9_objectid_decode_short_payload_panics ("") [1, 2, 3] (by decide)

/-- C4: the identifier's binary encode algorithm: empty text gives the null
type; otherwise the hex is parsed, a parse failure surfaces as the error; the
all-zero parse result collapses to the null type; any other parse result is
emitted as a native object-id value.  The textual encode renders both the
empty identifier and the all-zero sentinel as null. -/
theorem c4_objectid_encode_algorithm (o : ObjectId) :
    (o.length = 0 → ObjectId.MarshalBSONValue o = .ok bsonNullValue) ∧
    (∀ e, objectIDFromHexBytes o = .error e → o.length ≠ 0 →
      ObjectId.MarshalBSONValue o = .error e) ∧
    (objectIDFromHexBytes o = .ok (List.replicate 12 0) →
      ObjectId.MarshalBSONValue o = .ok bsonNullValue) ∧
    (∀ b, objectIDFromHexBytes o = .ok b → b ≠ List.replicate 12 0 →
      ObjectId.MarshalBSONValue o = .ok (bsonTypeObjectID, .bytes b)) ∧
    ((o.length = 0 ∨ o = NilObjectID) → ObjectId.MarshalJSON o = .ok .null) := by
  refine ⟨?_, ?_, ?_, ?_, ?_⟩
  · intro h
    simp [ObjectId.MarshalBSONValue, h]
  · intro e he h
    simp [ObjectId.MarshalBSONValue, he, h]
  · intro he
    have h : o.length ≠ 0 := by
      intro h0
      rw [objectIDFromHexBytes, if_neg (by omega)] at he
      exact Except.noConfusion he
    simp [ObjectId.MarshalBSONValue, he, h]
  · intro b hb hz
    have h : o.length ≠ 0 := by
      intro h0
      rw [objectIDFromHexBytes, if_neg (by omega)] at hb
      exact Except.noConfusion hb
    simp [ObjectId.MarshalBSONValue, hb, h, hz]
    exact fun h2 =>
      absurd (h2.trans
        (by decide : ([0, 0, 0, 0, 0, 0, 0, 0, 0, 0, 0, 0] : List ℕ) =
          List.replicate 12 0)) hz
  · rintro (h | h)
    · simp [ObjectId.MarshalJSON, h]
    · subst h
      decide

theorem c4_objectid_encode_algorithm_witness :
    ObjectId.MarshalBSONValue ("6555d2cc4fce49f464c2f683") =
      .ok (bsonTypeObjectID,
        .bytes [101, 85, 210, 204, 79, 206, 73, 244, 100, 194, 246, 131]) ∧
    ObjectId.MarshalBSONValue NilObjectID = .ok bsonNullValue ∧
    ObjectId.MarshalBSONValue ("xxx") = .error .invalidHex :=
  ⟨(c4_objectid_encode_algorithm ("6555d2cc4fce49f464c2f683")).2.2.2.1
      [101, 85, 210, 204, 79, 206, 73, 244, 100, 194, 246, 131]
      (by decide) (by decide),
   (c4_objectid_encode_algorithm NilObjectID).2.2.1 (by decide),
   (c4_objectid_encode_algorithm ("xxx")).2.1 .invalidHex (by decide) (by decide)⟩

/-- A UUID of the repository: its textual form (`type UUID string`). -/
abbrev UUID := String

def UUID.IsZero (u : UUID) : Bool :=
  u.length == 0

/-- google/uuid `xtob`: the byte named by two hex digits. -/
def xtob (c1 c2 : Char) : Option ℕ :=
  match fromHexChar c1, fromHexChar c2 with
  | some a, some b => some (a * 16 + b)
  | _, _ => none

/-- google/uuid `UUID.String` body: canonical lower-case rendering of the 16
bytes, dashes after bytes 3, 5, 7 and 9.  The Go receiver is a 16-byte
array, so other lengths are unreachable (rendered here as the empty list). -/
def uuidChars (bs : List ℕ) : List Char :=
  match bs with
  | [b0, b1, b2, b3, b4, b5, b6, b7, b8, b9, b10, b11, b12, b13, b14, b15] =>
    hexByte b0 ++ hexByte b1 ++ hexByte b2 ++ hexByte b3 ++ ['-'] ++
    hexByte b4 ++ hexByte b5 ++ ['-'] ++ hexByte b6 ++ hexByte b7 ++ ['-'] ++
    hexByte b8 ++ hexByte b9 ++ ['-'] ++ hexByte b10 ++ hexByte b11 ++
    hexByte b12 ++ hexByte b13 ++ hexByte b14 ++ hexByte b15
  | _ => []

def uuidString (bs : List ℕ) : String :=
  String.mk (uuidChars bs)

/-- The hex-pair loop of google/uuid `Parse`: reads the pairs that start at
the given indices, writing each parsed byte into the result array in turn.
On the first bad pair the bytes already parsed are kept and the remaining
array entries stay at their zero value, exactly as in Go. -/
def uuidParsePairs (cs : List Char) : List ℕ → List ℕ × Option GoErr
  | [] => ([], none)
  | x :: rest =>
    match xtob (cs.getD x ' ') (cs.getD (x + 1) ' ') with
    | none => (List.replicate (rest.length + 1) 0, some .invalidUuidFormat)
    | some v =>
      let p := uuidParsePairs cs rest
      (v :: p.1, p.2)

def uuidIndices : List ℕ :=
  [0, 2, 4, 6, 9, 11, 14, 16, 19, 21, 24, 26, 28, 30, 32, 34]

def uuidIndices32 : List ℕ :=
  [0, 2, 4, 6, 8, 10, 12, 14, 16, 18, 20, 22, 24, 26, 28, 30]

/-- The tail of google/uuid `Parse` after the length switch: dash positions
8, 13, 18, 23, then the sixteen hex pairs. -/
def uuidParseCore (cs : List Char) : List ℕ × Option GoErr :=
  if cs.getD 8 ' ' ≠ '-' ∨ cs.getD 13 ' ' ≠ '-' ∨
      cs.getD 18 ' ' ≠ '-' ∨ cs.getD 23 ' ' ≠ '-' then
    (List.replicate 16 0, some .invalidUuidFormat)
  else uuidParsePairs cs uuidIndices

/-- `strings.EqualFold` on the ASCII prefixes compared here (Unicode-specific
folding never applies to "urn:uuid:"). -/
def equalFold : List Char → List Char → Bool
  | [], [] => true
  | a :: as, b :: bs => (a.toLower == b.toLower) && equalFold as bs
  | _, _ => false

/-- google/uuid `Parse` (and `ParseBytes`, which is byte-identical): accepts
the 36-char canonical form, the urn:uuid: form, a braces form — from which
only the first character is actually dropped — and the plain 32-digit hex
form; every other length fails at once.  Returns the (possibly partially
filled) byte array Go-style, together with the error. -/
def uuidParse (cs : List Char) : List ℕ × Option GoErr :=
  if cs.length = 36 then uuidParseCore cs
  else if cs.length = 45 then
    if equalFold (cs.take 9) ("urn:uuid:".toList) then uuidParseCore (cs.drop 9)
    else (List.replicate 16 0, some .invalidUrnPrefix)
  else if cs.length = 38 then uuidParseCore (cs.drop 1)
  else if cs.length = 32 then uuidParsePairs cs uuidIndices32
  else (List.replicate 16 0, some (.invalidUuidLength cs.length))

/-- Repository `UuidFromString`: `u, err := uuid.Parse(id)` followed by
`return UUID(u.String()), err` — the byte array is rendered whether or not
parsing succeeded. -/
def UuidFromString (id : String) : String × Option GoErr :=
  let p := uuidParse id.toList
  (uuidString p.1, p.2)

/-- `UUID.MarshalJSON`: null when empty, else the string. -/
def UUID.MarshalJSON (u : UUID) : Except GoErr Json :=
  if UUID.IsZero u then .ok .null
  else .ok (.str u)

/-- `UUID.UnmarshalJSON`: the raw JSON bytes are compared against the literal
null and otherwise handed to `uuid.ParseBytes` — including the surrounding
quotes of a JSON string, of which `Parse`'s 38-byte case strips exactly the
first one.  A numeric JSON payload can never parse as a UUID; the length
argument of its error (the printed decimal's length) is not reproduced
here, and no claim depends on that branch. -/
def UUID.UnmarshalJSON (u : UUID) (j : Json) : GoRet UUID :=
  match j with
  | .null => .ok ""
  | .str s =>
    let p := uuidParse ('"' :: (s.toList ++ ['"']))
    match p.2 with
    | some e => .err e u
    | none => .ok (uuidString p.1)
  | .num _ => .err (.invalidUuidLength 0) u

/-- `UUID.MarshalBSONValue`: null when empty; else parse the string (errors
surface), and emit the 16 bytes as a binary value with the UUID subtype
(`uid.MarshalBinary` never fails). -/
def UUID.MarshalBSONValue (u : UUID) : Except GoErr (ℕ × BVal) :=
  if UUID.IsZero u then .ok bsonNullValue
  else
    let p := uuidParse u.toList
    match p.2 with
    | some e => .error e
    | none => .ok (bsonTypeBinary, .bin binaryUUID p.1)

/-- `UUID.UnmarshalBSONValue`: null sets the zero value; a non-binary tag is
the wrong-type error; a binary value with a non-UUID subtype is the
wrong-subtype error; `uuid.FromBytes` then demands exactly 16 bytes. -/
def UUID.UnmarshalBSONValue (u : UUID) (typ : ℕ) (data : BVal) : GoRet UUID :=
  if typ = bsonTypeNull then .ok ""
  else if typ ≠ bsonTypeBinary then .err .wrongTypeBinary u
  else
    match data with
    | .bin sub bs =>
      if sub ≠ binaryUUID then .err .wrongSubtypeUuid u
      else if bs.length ≠ 16 then .err (.uuidByteLength bs.length) u
      else .ok (uuidString bs)
    | _ => .err .bsonDecodeError u

example : UuidFromString ("f47ac10b-58cc-0372-8567-0e02b2c3d479") =
    ("f47ac10b-58cc-0372-8567-0e02b2c3d479", none) := by decide
example : UuidFromString ("xxxx") =
    ("00000000-0000-0000-0000-000000000000", some (.invalidUuidLength 4)) := by
  decide
example : UuidFromString ("11111111-1111-1111-1111-11111111111x") =
    ("11111111-1111-1111-1111-111111111100", some .invalidUuidFormat) := by
  decide
example : UUID.UnmarshalJSON ("") (.str ("f47ac10b-58cc-0372-8567-0e02b2c3d479")) =
    .ok ("f47ac10b-58cc-0372-8567-0e02b2c3d479") := by decide

theorem uuidParsePairs_fst_length (cs : List Char) (xs : List ℕ) :
    (uuidParsePairs cs xs).1.length = xs.length := by
  induction xs with
  | nil => rfl
  | cons x rest ih =>
    simp only [uuidParsePairs]
    cases h : xtob (cs.getD x ' ') (cs.getD (x + 1) ' ') with
    | none => simp
    | some v => simp [ih]

theorem uuidParse_fst_length (cs : List Char) :
    (uuidParse cs).1.length = 16 := by
  have h1 : uuidIndices.length = 16 := rfl
  have h2 : uuidIndices32.length = 16 := rfl
  unfold uuidParse uuidParseCore
  split_ifs <;>
    simp [uuidParsePairs_fst_length, h1, h2]

theorem uuidString_length_of_sixteen (bs : List ℕ) (h : bs.length = 16) :
    (uuidString bs).length = 36 := by
  obtain ⟨a0, a1, a2, a3, a4, a5, a6, a7, a8, a9, a10, a11, a12, a13, a14,
      a15, rfl⟩ :
      ∃ a0 a1 a2 a3 a4 a5 a6 a7 a8 a9 a10 a11 a12 a13 a14 a15,
        bs = [a0, a1, a2, a3, a4, a5, a6, a7, a8, a9, a10, a11, a12, a13,
          a14, a15] := by
    match bs, h with
    | [a0, a1, a2, a3, a4, a5, a6, a7, a8, a9, a10, a11, a12, a13, a14,
        a15], _ =>
      exact ⟨a0, a1, a2, a3, a4, a5, a6, a7, a8, a9, a10, a11, a12, a13,
        a14, a15, rfl⟩
  simp [uuidString, uuidChars, hexByte, String.length]

/-- C10 (counterexample): not every failed parse returns the all-zero UUID
string: a 36-char input whose last hex digit is bad keeps the fifteen bytes
already parsed, so `UuidFromString` returns their rendering instead. -/
theorem c10_uuidfromstring_counterexample :
    UuidFromString ("11111111-1111-1111-1111-11111111111x") =
      ("11111111-1111-1111-1111-111111111100", some .invalidUuidFormat) ∧
    ("11111111-1111-1111-1111-111111111100" : String) ≠
      "00000000-0000-0000-0000-000000000000" ∧
    UUID.IsZero
      (UuidFromString ("11111111-1111-1111-1111-11111111111x")).1 = false := by
  refine ⟨by decide, by decide, by decide⟩

/-- C10 (amended): when `UuidFromString` is given a string that does not
parse, it returns the parse error together with the 36-character rendering
of the partially parsed UUID bytes — which is the canonical all-zero UUID
string whenever parsing fails before any hex byte is consumed, in particular
for every input whose length is none of 32, 36, 38 and 45 — and the returned
value always satisfies `IsZero() = false`. -/
theorem c10_uuidfromstring_failure_amended (s : String) :
    (∀ e, (UuidFromString s).2 = some e →
      UUID.IsZero (UuidFromString s).1 = false ∧
      ((UuidFromString s).1).length = 36) ∧
    (s.length ≠ 32 → s.length ≠ 36 → s.length ≠ 38 → s.length ≠ 45 →
      UuidFromString s =
        ("00000000-0000-0000-0000-000000000000",
          some (.invalidUuidLength s.length))) := by
  constructor
  · intro e _
    have hlen : ((UuidFromString s).1).length = 36 :=
      uuidString_length_of_sixteen _ (uuidParse_fst_length s.toList)
    refine ⟨?_, hlen⟩
    simp only [UUID.IsZero, beq_eq_false_iff_ne, ne_eq, hlen]
    omega
  · intro h32 h36 h38 h45
    have hl : s.toList.length = s.length := rfl
    have hz : uuidString [0, 0, 0, 0, 0, 0, 0, 0, 0, 0, 0, 0, 0, 0, 0, 0] =
        "00000000-0000-0000-0000-000000000000" := by decide
    simp only [UuidFromString, uuidParse, hl]
    simp [h32, h36, h38, h45, hz]

theorem c10_uuidfromstring_failure_amended_witness :
    UUID.IsZero (UuidFromString ("xxxx")).1 = false ∧
    UuidFromString ("xxxx") =
      ("00000000-0000-0000-0000-000000000000",
        some (.invalidUuidLength (String.length ("xxxx")))) :=
  ⟨((c10_uuidfromstring_failure_amended ("xxxx")).1 (.invalidUuidLength 4)
      (by decide)).1,
   (c10_uuidfromstring_failure_amended ("xxxx")).2 (by decide) (by decide)
      (by decide) (by decide)⟩

attribute [local semireducible] Rat.add Rat.mul Rat.inv Rat.sub

set_option maxRecDepth 100000

/-- Round-to-nearest, ties to even, of a rational to an integer. -/
def rne (x : ℚ) : ℤ :=
  let n := ⌊x⌋
  if x - n < 1 / 2 then n
  else if (1 : ℚ) / 2 < x - n then n + 1
  else if n % 2 = 0 then n else n + 1

def pow2 (e : ℤ) : ℚ :=
  if 0 ≤ e then ((2 ^ e.toNat : ℕ) : ℚ)
  else ((2 ^ (-e).toNat : ℕ) : ℚ)⁻¹

/-- Binary search for the binade: under the invariant
`pow2 lo ≤ s < pow2 hi` it returns the `e` with `pow2 e ≤ s < pow2 (e + 1)`.
The fuel (20 for a starting range of width 2130) only bounds the
bisection. -/
def findExpBin : ℕ → ℤ → ℤ → ℚ → ℤ
  | 0, lo, _, _ => lo
  | fuel + 1, lo, hi, s =>
    if hi ≤ lo + 1 then lo
    else
      let mid := (lo + hi) / 2
      if pow2 mid ≤ s then findExpBin fuel mid hi s
      else findExpBin fuel lo mid s

/-- `⌊log₂ s⌋` for positive `s`, clamped to `[-1100, 1030]`; the clamp bounds
exceed the double exponent range, so clamped values are settled by the
overflow check and the subnormal `emin` clamp of `roundFloat`. -/
def binade (s : ℚ) : ℤ :=
  if pow2 1030 ≤ s then 1030
  else if s < pow2 (-1100) then -1100
  else findExpBin 20 (-1100) 1030 s

/-- IEEE-754 binary rounding (round to nearest, ties to even) at the given
significand precision and exponent range, with gradual underflow; `none`
is an overflow to infinity.  `roundFloat 24 (-126) 127` is Go's conversion
to `float32`, `roundFloat 53 (-1022) 1023` characterizes the `float64`
values. -/
def roundFloat (prec : ℕ) (emin emax : ℤ) (q : ℚ) : Option ℚ :=
  if q = 0 then some 0
  else
    let s := |q|
    let e := max (binade s) emin
    let ulp := e - ((prec : ℤ) - 1)
    let m := rne (s / pow2 ulp)
    let r := (m : ℚ) * pow2 ulp
    if pow2 (emax + 1) ≤ r then none
    else some (if q < 0 then -r else r)

def roundF32 (q : ℚ) : Option ℚ := roundFloat 24 (-126) 127 q

def roundF64 (q : ℚ) : Option ℚ := roundFloat 53 (-1022) 1023 q

example : roundF32 16777217 = some 16777216 := by decide
example : roundF32 (3 / 2) = some (3 / 2) := by decide
example : roundF64 16777217 = some 16777217 := by decide

def roundF32Val (q : ℚ) : ℚ := (roundF32 q).getD 0

/-- `type NullString string` (string.go). -/
abbrev NullString := String

/-- `NullString.MarshalJSON`: empty gives null, else the string. -/
def NullString.MarshalJSON (v : NullString) : Except GoErr Json :=
  if v.length = 0 then .ok .null
  else .ok (.str v)

/-- `NullString.MarshalBSONValue`: empty gives the null type, else a native
string value. -/
def NullString.MarshalBSONValue (v : NullString) : Except GoErr (ℕ × BVal) :=
  if v.length = 0 then .ok bsonNullValue
  else .ok (bsonTypeString, .str v)

/-- `type NullInt32 int32` (number.go); values are 32-bit. -/
abbrev NullInt32 := ℤ

def NullInt32.MarshalJSON (v : NullInt32) : Except GoErr Json :=
  if v = 0 then .ok .null
  else .ok (.num v)

def NullInt32.MarshalBSONValue (v : NullInt32) : Except GoErr (ℕ × BVal) :=
  if v = 0 then .ok bsonNullValue
  else .ok (bsonTypeInt32, .i32 v)

/-- `type NullInt64 int64` (number.go); values are 64-bit. -/
abbrev NullInt64 := ℤ

def NullInt64.MarshalJSON (v : NullInt64) : Except GoErr Json :=
  if v = 0 then .ok .null
  else .ok (.num v)

def NullInt64.MarshalBSONValue (v : NullInt64) : Except GoErr (ℕ × BVal) :=
  if v = 0 then .ok bsonNullValue
  else .ok (bsonTypeInt64, .i64 v)

/-- `type NullFloat64 float64` (number.go); the carrier is the rational value
of the stored float64 (non-finite Go values lie outside this carrier and are
touched by no claim). -/
abbrev NullFloat64 := ℚ

/-- `NullFloat64.MarshalJSON`: zero gives null, else the numeric value (Go
prints the shortest decimal that re-reads to the same float64, so the
emitted number is modelled by the value itself). -/
def NullFloat64.MarshalJSON (v : NullFloat64) : Except GoErr Json :=
  if v = 0 then .ok .null
  else .ok (.num v)

def NullFloat64.MarshalBSONValue (v : NullFloat64) : Except GoErr (ℕ × BVal) :=
  if v = 0 then .ok bsonNullValue
  else .ok (bsonTypeDouble, .dbl (some v))

/-- `type NullFloat32 float64` (number.go): stored at double width. -/
abbrev NullFloat32 := ℚ

/-- `NullFloat32.MarshalJSON`: zero gives null, else
`json.Marshal(float32(v))` — the value is first narrowed to float32
(round-to-nearest-even); a non-finite narrowing makes `json.Marshal` fail.
The decimal Go then prints is only guaranteed to re-read to the same
float32, so re-reading this number at 64-bit width is outside the model and
no claim relies on it. -/
def NullFloat32.MarshalJSON (v : NullFloat32) : Except GoErr Json :=
  if v = 0 then .ok .null
  else
    match roundF32 v with
    | some w => .ok (.num w)
    | none => .error .jsonUnsupportedValue

/-- `NullFloat32.MarshalBSONValue`: zero gives the null type, else the
driver writes the BSON double `float64(float32(v))`, i.e. the
round-to-nearest float32 of the stored value. -/
def NullFloat32.MarshalBSONValue (v : NullFloat32) : Except GoErr (ℕ × BVal) :=
  if v = 0 then .ok bsonNullValue
  else .ok (bsonTypeDouble, .dbl (roundF32 v))

/-- Default `encoding/json` decode into an `int32`-kinded destination (the
repository defines no custom decode for NullInt32): null is a no-op, an
in-range integral number is stored, and everything else errors with the
destination untouched. -/
def jsonUnmarshalInt32 (dest : ℤ) (j : Json) : GoRet ℤ :=
  match j with
  | .null => .ok dest
  | .num q =>
    if q.den = 1 then
      if -(2 ^ 31) ≤ q.num ∧ q.num < 2 ^ 31 then .ok q.num
      else .err .jsonRangeError dest
    else .err .jsonTypeError dest
  | .str _ => .err .jsonTypeError dest

/-- Default `encoding/json` decode into an `int64`-kinded destination. -/
def jsonUnmarshalInt64 (dest : ℤ) (j : Json) : GoRet ℤ :=
  match j with
  | .null => .ok dest
  | .num q =>
    if q.den = 1 then
      if -(2 ^ 63) ≤ q.num ∧ q.num < 2 ^ 63 then .ok q.num
      else .err .jsonRangeError dest
    else .err .jsonTypeError dest
  | .str _ => .err .jsonTypeError dest

/-- Default `encoding/json` decode into a `float64`-kinded destination
(NullFloat64 and NullFloat32 both store at double width): null is a no-op, a
number is parsed with `strconv.ParseFloat` at 64-bit — round-to-nearest of
its exact decimal value, out-of-range errors. -/
def jsonUnmarshalFloat64 (dest : ℚ) (j : Json) : GoRet ℚ :=
  match j with
  | .null => .ok dest
  | .num q =>
    match roundF64 q with
    | some w => .ok w
    | none => .err .jsonRangeError dest
  | .str _ => .err .jsonTypeError dest

/-- Default `encoding/json` decode into a string-kinded destination
(NullString defines no custom decode). -/
def jsonUnmarshalNullString (dest : String) (j : Json) : GoRet String :=
  match j with
  | .null => .ok dest
  | .str s => .ok s
  | .num _ => .err .jsonTypeError dest

/-- Driver default decode of a BSON value into a string destination: null
decodes to the zero value, a string value to its contents. -/
def bsonUnmarshalString (dest : String) (typ : ℕ) (data : BVal) :
    GoRet String :=
  if typ = bsonTypeNull then .ok ""
  else if typ = bsonTypeString then
    match data with
    | .str s => .ok s
    | _ => .err .bsonDecodeError dest
  else .err .bsonDecodeError dest

/-- Driver default decode of a BSON value into an int32 destination: null
decodes to zero; int32 directly; int64 and exact doubles when they fit. -/
def bsonUnmarshalInt32 (dest : ℤ) (typ : ℕ) (data : BVal) : GoRet ℤ :=
  if typ = bsonTypeNull then .ok 0
  else if typ = bsonTypeInt32 then
    match data with
    | .i32 n => .ok n
    | _ => .err .bsonDecodeError dest
  else if typ = bsonTypeInt64 then
    match data with
    | .i64 n =>
      if -(2 ^ 31) ≤ n ∧ n < 2 ^ 31 then .ok n
      else .err .jsonRangeError dest
    | _ => .err .bsonDecodeError dest
  else if typ = bsonTypeDouble then
    match data with
    | .dbl (some q) =>
      if q.den = 1 ∧ -(2 ^ 31) ≤ q.num ∧ q.num < 2 ^ 31 then .ok q.num
      else .err .jsonRangeError dest
    | _ => .err .bsonDecodeError dest
  else .err .bsonDecodeError dest

/-- Driver default decode of a BSON value into an int64 destination. -/
def bsonUnmarshalInt64 (dest : ℤ) (typ : ℕ) (data : BVal) : GoRet ℤ :=
  if typ = bsonTypeNull then .ok 0
  else if typ = bsonTypeInt32 then
    match data with
    | .i32 n => .ok n
    | _ => .err .bsonDecodeError dest
  else if typ = bsonTypeInt64 then
    match data with
    | .i64 n => .ok n
    | _ => .err .bsonDecodeError dest
  else if typ = bsonTypeDouble then
    match data with
    | .dbl (some q) =>
      if q.den = 1 ∧ -(2 ^ 63) ≤ q.num ∧ q.num < 2 ^ 63 then .ok q.num
      else .err .jsonRangeError dest
    | _ => .err .bsonDecodeError dest
  else .err .bsonDecodeError dest

/-- Driver default decode of a BSON value into a float64 destination: null
decodes to zero, a finite double to its value, integer values convert
(int64 rounding to the nearest double).  A non-finite double lies outside
the rational carrier; no claim reaches that branch. -/
def bsonUnmarshalFloat64 (dest : ℚ) (typ : ℕ) (data : BVal) : GoRet ℚ :=
  if typ = bsonTypeNull then .ok 0
  else if typ = bsonTypeDouble then
    match data with
    | .dbl (some q) => .ok q
    | _ => .err .bsonDecodeError dest
  else if typ = bsonTypeInt32 then
    match data with
    | .i32 n => .ok n
    | _ => .err .bsonDecodeError dest
  else if typ = bsonTypeInt64 then
    match data with
    | .i64 n => .ok ((roundF64 n).getD 0)
    | _ => .err .bsonDecodeError dest
  else .err .bsonDecodeError dest

def b64Alphabet : List Char :=
  "ABCDEFGHIJKLMNOPQRSTUVWXYZabcdefghijklmnopqrstuvwxyz0123456789+/".toList

def b64Char (n : ℕ) : Char :=
  b64Alphabet.getD n 'A'

def b64Index (c : Char) : Option ℕ :=
  let i := b64Alphabet.indexOf c
  if i < 64 then some i else none

/-- `base64.StdEncoding.EncodeToString`: three bytes to four alphabet
characters, with `=` padding on a short final group. -/
def b64encode : List ℕ → List Char
  | [] => []
  | [a] => [b64Char (a / 4), b64Char (a % 4 * 16), '=', '=']
  | [a, b] =>
    [b64Char (a / 4), b64Char (a % 4 * 16 + b / 16), b64Char (b % 16 * 4), '=']
  | a :: b :: c :: rest =>
    b64Char (a / 4) :: b64Char (a % 4 * 16 + b / 16) ::
      b64Char (b % 16 * 4 + c / 64) :: b64Char (c % 64) :: b64encode rest

/-- `base64.StdEncoding.DecodeString`: four-character quantums, padding only
in the final quantum, any character outside the alphabet rejected. -/
def b64decode : List Char → Option (List ℕ)
  | [] => some []
  | c1 :: c2 :: c3 :: c4 :: rest =>
    if c3 = '=' ∧ c4 = '=' ∧ rest = [] then
      match b64Index c1, b64Index c2 with
      | some a, some b => some [a * 4 + b / 16]
      | _, _ => none
    else if c4 = '=' ∧ rest = [] then
      match b64Index c1, b64Index c2, b64Index c3 with
      | some a, some b, some c => some [a * 4 + b / 16, b % 16 * 16 + c / 4]
      | _, _, _ => none
    else
      match b64Index c1, b64Index c2, b64Index c3, b64Index c4 with
      | some a, some b, some c, some d =>
        match b64decode rest with
        | some bs =>
          some ((a * 4 + b / 16) :: (b % 16 * 16 + c / 4) ::
            (c % 4 * 64 + d) :: bs)
        | none => none
      | _, _, _, _ => none
  | _ => none

/-- `type Binary []byte`; a nil and an empty Go slice are both the empty
list here. -/
abbrev Binary := List ℕ

/-- `Binary.MarshalJSON`: null when empty, else the base64 text. -/
def Binary.MarshalJSON (b : Binary) : Except GoErr Json :=
  if b.length = 0 then .ok .null
  else .ok (.str (String.mk (b64encode b)))

/-- `Binary.UnmarshalJSON` (at the JSON-value level; the Go guard for a raw
empty input precedes any JSON value and is not represented): null or an
empty base64 string give the nil slice, else the base64 payload is decoded,
malformed base64 erring with the destination untouched. -/
def Binary.UnmarshalJSON (b : Binary) (j : Json) : GoRet Binary :=
  match jsonUnmarshalString j with
  | .error e => .err e b
  | .ok s =>
    if s.length = 0 then .ok []
    else
      match b64decode s.toList with
      | some bs => .ok bs
      | none => .err .base64CorruptInput b

/-- `Binary.MarshalBSONValue`: null type when empty, else a binary value
with the generic subtype. -/
def Binary.MarshalBSONValue (b : Binary) : Except GoErr (ℕ × BVal) :=
  if b.length = 0 then .ok bsonNullValue
  else .ok (bsonTypeBinary, .bin binaryGeneric b)

/-- `Binary.UnmarshalBSONValue`: null gives the nil slice, a non-binary tag
the wrong-type error, a non-generic subtype the wrong-subtype error, else
the raw bytes. -/
def Binary.UnmarshalBSONValue (b : Binary) (typ : ℕ) (data : BVal) :
    GoRet Binary :=
  if typ = bsonTypeNull then .ok []
  else if typ ≠ bsonTypeBinary then .err .wrongTypeBinary b
  else
    match data with
    | .bin sub bs =>
      if sub ≠ binaryGeneric then .err .wrongSubtypeGeneric b
      else .ok bs
    | _ => .err .bsonDecodeError b

example : b64encode [77, 97, 110] = ("TWFu".toList) := by decide
example : b64decode ("TWFuTQ==".toList) = some [77, 97, 110, 77] := by decide
example : Binary.UnmarshalJSON [] (.str ("TWFu")) = .ok [77, 97, 110] := by
  decide

/-- The connector state, as far as the guards in connector.go read it: only
whether a target collection is configured (and its name).  The wrapped
client, database and context are opaque to every claim. -/
structure StdConnector : Type where
  collection : Option String
  deriving DecidableEq, Repr

/-- A call forwarded verbatim to the configured collection: the driver
operation invoked and the collection it is invoked on.  The filter /
document / pipeline / options arguments are forwarded unchanged and are not
represented. -/
structure FwdCall : Type where
  op : String
  coll : String
  deriving DecidableEq, Repr

def StdConnector.WithCollection (conn : StdConnector) (coll : String) :
    StdConnector :=
  { conn with collection := some coll }

def StdConnector.Find (conn : StdConnector) : Except GoErr FwdCall :=
  match conn.collection with
  | none => .error .noCollectionSet
  | some coll => .ok ⟨"Find", coll⟩

/-- `FindOne` wraps the error in a `mongo.SingleResult`; the result is
modelled by the same error-or-forward sum. -/
def StdConnector.FindOne (conn : StdConnector) : Except GoErr FwdCall :=
  match conn.collection with
  | none => .error .noCollectionSet
  | some coll => .ok ⟨"FindOne", coll⟩

def StdConnector.Count (conn : StdConnector) : Except GoErr FwdCall :=
  match conn.collection with
  | none => .error .noCollectionSet
  | some coll => .ok ⟨"CountDocuments", coll⟩

def StdConnector.Distinct (conn : StdConnector) : Except GoErr FwdCall :=
  match conn.collection with
  | none => .error .noCollectionSet
  | some coll => .ok ⟨"Distinct", coll⟩

def StdConnector.FindOneAndDelete (conn : StdConnector) :
    Except GoErr FwdCall :=
  match conn.collection with
  | none => .error .noCollectionSet
  | some coll => .ok ⟨"FindOneAndDelete", coll⟩

def StdConnector.FindOneAndReplace (conn : StdConnector) :
    Except GoErr FwdCall :=
  match conn.collection with
  | none => .error .noCollectionSet
  | some coll => .ok ⟨"FindOneAndReplace", coll⟩

def StdConnector.FindOneAndUpdate (conn : StdConnector) :
    Except GoErr FwdCall :=
  match conn.collection with
  | none => .error .noCollectionSet
  | some coll => .ok ⟨"FindOneAndUpdate", coll⟩

def StdConnector.UpdateOne (conn : StdConnector) : Except GoErr FwdCall :=
  match conn.collection with
  | none => .error .noCollectionSet
  | some coll => .ok ⟨"UpdateOne", coll⟩

def StdConnector.UpdateMany (conn : StdConnector) : Except GoErr FwdCall :=
  match conn.collection with
  | none => .error .noCollectionSet
  | some coll => .ok ⟨"UpdateMany", coll⟩

def StdConnector.UpdateById (conn : StdConnector) : Except GoErr FwdCall :=
  match conn.collection with
  | none => .error .noCollectionSet
  | some coll => .ok ⟨"UpdateByID", coll⟩

def StdConnector.ReplaceOne (conn : StdConnector) : Except GoErr FwdCall :=
  match conn.collection with
  | none => .error .noCollectionSet
  | some coll => .ok ⟨"ReplaceOne", coll⟩

def StdConnector.InsertOne (conn : StdConnector) : Except GoErr FwdCall :=
  match conn.collection with
  | none => .error .noCollectionSet
  | some coll => .ok ⟨"InsertOne", coll⟩

def StdConnector.InsertMany (conn : StdConnector) : Except GoErr FwdCall :=
  match conn.collection with
  | none => .error .noCollectionSet
  | some coll => .ok ⟨"InsertMany", coll⟩

def StdConnector.DeleteOne (conn : StdConnector) : Except GoErr FwdCall :=
  match conn.collection with
  | none => .error .noCollectionSet
  | some coll => .ok ⟨"DeleteOne", coll⟩

def StdConnector.DeleteMany (conn : StdConnector) : Except GoErr FwdCall :=
  match conn.collection with
  | none => .error .noCollectionSet
  | some coll => .ok ⟨"DeleteMany", coll⟩

def StdConnector.Aggregate (conn : StdConnector) : Except GoErr FwdCall :=
  match conn.collection with
  | none => .error .noCollectionSet
  | some coll => .ok ⟨"Aggregate", coll⟩

def StdConnector.Drop (conn : StdConnector) : Except GoErr FwdCall :=
  match conn.collection with
  | none => .error .noCollectionSet
  | some coll => .ok ⟨"Drop", coll⟩

def StdConnector.Watch (conn : StdConnector) : Except GoErr FwdCall :=
  match conn.collection with
  | none => .error .noCollectionSet
  | some coll => .ok ⟨"Watch", coll⟩

/-- The counters collection: "Sequences", or the first option string. -/
def seqCollectionName (opts : List String) : String :=
  match opts with
  | [] => "Sequences"
  | o :: _ => o

/-- The findOneAndUpdate request GetNextSeq issues: its target collection
and counter document, the increment, and the upsert / return-after-update /
projection options. -/
structure SeqRequest : Type where
  seqColl : String
  docId : String
  incField : String
  incAmount : ℤ
  upsert : Bool
  returnAfter : Bool
  projField : String
  deriving DecidableEq, Repr

/-- The request-building stage of `GetNextSeq`: an empty name falls back to
the configured collection's name (erring when none is configured), then a
FindOneAndUpdate with `$inc Current 1`, upsert, return-After and a `Current`
projection is issued against the counters collection — via `WithCollection`,
so this stage never fails for a non-empty name. -/
def StdConnector.GetNextSeqRequest (conn : StdConnector) (name : String)
    (opts : List String) : Except GoErr SeqRequest :=
  match (if name.length = 0 then
          match conn.collection with
          | none => Except.error GoErr.noCollectionSet
          | some coll => Except.ok coll
        else Except.ok name) with
  | .error e => .error e
  | .ok name2 =>
    .ok ⟨seqCollectionName opts, name2, "Current", 1, true, true, "Current"⟩

/-- The dynamic type of `data["Current"]` after decoding the returned
document; `other` covers every type outside the supported set (including a
missing key). -/
inductive SeqVal : Type where
  | i32 (n : ℤ)
  | i64 (n : ℤ)
  | f64 (q : ℚ)
  | other
  deriving DecidableEq, Repr

/-- Go's float64-to-int conversion truncates toward zero. -/
def truncQ (q : ℚ) : ℤ :=
  if 0 ≤ q then ⌊q⌋ else ⌈q⌉

/-- The result stage of `GetNextSeq`: a decode error propagates; an int32 or
int64 counter is returned (as int64), a float64 counter is truncated; any
other decoded type is the unknown-return-type error. -/
def StdConnector.GetNextSeqDecode (decodeRes : Except GoErr (Option SeqVal)) :
    Except GoErr ℤ :=
  match decodeRes with
  | .error e => .error e
  | .ok cur =>
    match cur with
    | some (.i32 n) => .ok n
    | some (.i64 n) => .ok n
    | some (.f64 q) => .ok (truncQ q)
    | _ => .error .unknownReturnType

/-- C6 (counterexample): `GetNextSeq` invoked with a non-empty name on a
connector without a configured collection does not yield the
NoCollectionSet error — it proceeds and issues the counter request against
the "Sequences" collection. -/
theorem c6_getnextseq_no_guard_counterexample :
    StdConnector.GetNextSeqRequest ⟨none⟩ ("user") [] =
      .ok ⟨"Sequences", "user", "Current", 1, true, true, "Current"⟩ ∧
    StdConnector.GetNextSeqRequest ⟨none⟩ ("user") [] ≠
      .error .noCollectionSet := by
  refine ⟨by decide, by decide⟩

/-- C6 (amended): every forwarding operation of the connector checks that a
collection is configured and yields the NoCollectionSet error ("no
collection set") instead of forwarding when none is; `GetNextSeq`, however,
performs this check only when its name argument is empty (the name then
falls back to the configured collection's name) — with a non-empty name it
always proceeds against the counters collection. -/
theorem c6_no_collection_guard (conn : StdConnector)
    (h : conn.collection = none) :
    StdConnector.Find conn = .error .noCollectionSet ∧
    StdConnector.FindOne conn = .error .noCollectionSet ∧
    StdConnector.Count conn = .error .noCollectionSet ∧
    StdConnector.Distinct conn = .error .noCollectionSet ∧
    StdConnector.FindOneAndDelete conn = .error .noCollectionSet ∧
    StdConnector.FindOneAndReplace conn = .error .noCollectionSet ∧
    StdConnector.FindOneAndUpdate conn = .error .noCollectionSet ∧
    StdConnector.UpdateOne conn = .error .noCollectionSet ∧
    StdConnector.UpdateMany conn = .error .noCollectionSet ∧
    StdConnector.UpdateById conn = .error .noCollectionSet ∧
    StdConnector.ReplaceOne conn = .error .noCollectionSet ∧
    StdConnector.InsertOne conn = .error .noCollectionSet ∧
    StdConnector.InsertMany conn = .error .noCollectionSet ∧
    StdConnector.DeleteOne conn = .error .noCollectionSet ∧
    StdConnector.DeleteMany conn = .error .noCollectionSet ∧
    StdConnector.Aggregate conn = .error .noCollectionSet ∧
    StdConnector.Drop conn = .error .noCollectionSet ∧
    StdConnector.Watch conn = .error .noCollectionSet ∧
    (∀ opts, StdConnector.GetNextSeqRequest conn "" opts =
      .error .noCollectionSet) ∧
    (∀ name opts, name.length ≠ 0 →
      StdConnector.GetNextSeqRequest conn name opts =
        .ok ⟨seqCollectionName opts, name, "Current", 1, true, true,
          "Current"⟩) ∧
    GoErr.message .noCollectionSet = "no collection set" := by
  refine ⟨?_, ?_, ?_, ?_, ?_, ?_, ?_, ?_, ?_, ?_, ?_, ?_, ?_, ?_, ?_, ?_,
    ?_, ?_, ?_, ?_, rfl⟩
  · simp [StdConnector.Find, h]
  · simp [StdConnector.FindOne, h]
  · simp [StdConnector.Count, h]
  · simp [StdConnector.Distinct, h]
  · simp [StdConnector.FindOneAndDelete, h]
  · simp [StdConnector.FindOneAndReplace, h]
  · simp [StdConnector.FindOneAndUpdate, h]
  · simp [StdConnector.UpdateOne, h]
  · simp [StdConnector.UpdateMany, h]
  · simp [StdConnector.UpdateById, h]
  · simp [StdConnector.ReplaceOne, h]
  · simp [StdConnector.InsertOne, h]
  · simp [StdConnector.InsertMany, h]
  · simp [StdConnector.DeleteOne, h]
  · simp [StdConnector.DeleteMany, h]
  · simp [StdConnector.Aggregate, h]
  · simp [StdConnector.Drop, h]
  · simp [StdConnector.Watch, h]
  · intro opts
    simp [StdConnector.GetNextSeqRequest, h]
  · intro name opts hn
    simp [StdConnector.GetNextSeqRequest, hn]

theorem c6_no_collection_guard_witness :
    StdConnector.Find ⟨none⟩ = .error .noCollectionSet ∧
    StdConnector.Drop ⟨none⟩ = .error .noCollectionSet ∧
    StdConnector.GetNextSeqRequest ⟨none⟩ "" [] =
      .error .noCollectionSet :=
  ⟨(c6_no_collection_guard ⟨none⟩ rfl).1,
   (c6_no_collection_guard ⟨none⟩ rfl).2.2.2.2.2.2.2.2.2.2.2.2.2.2.2.2.1,
   (c6_no_collection_guard ⟨none⟩ rfl).2.2.2.2.2.2.2.2.2.2.2.2.2.2.2.2.2.2.1
     []⟩

/-- C7: `GetNextSeq` issues one atomic increment-and-fetch — a
FindOneAndUpdate with increment 1 on the Current field, upsert enabled,
returning the post-update document — against the counter document named by
its argument, in the counters collection "Sequences" by default or the
first option string; an int32/int64 counter is returned as int64, a float64
counter as its integral truncation, and any other decoded type yields the
UnknownReturnType error ("unknown return type"). -/
theorem c7_getnextseq_behavior (conn : StdConnector) (name : String)
    (opts : List String) (h : name.length ≠ 0) :
    StdConnector.GetNextSeqRequest conn name opts =
      .ok ⟨seqCollectionName opts, name, "Current", 1, true, true,
        "Current"⟩ ∧
    seqCollectionName [] = "Sequences" ∧
    (∀ o rest, seqCollectionName (o :: rest) = o) ∧
    (∀ n, StdConnector.GetNextSeqDecode (.ok (some (.i32 n))) = .ok n) ∧
    (∀ n, StdConnector.GetNextSeqDecode (.ok (some (.i64 n))) = .ok n) ∧
    (∀ q, StdConnector.GetNextSeqDecode (.ok (some (.f64 q))) =
      .ok (truncQ q)) ∧
    StdConnector.GetNextSeqDecode (.ok (some .other)) =
      .error .unknownReturnType ∧
    StdConnector.GetNextSeqDecode (.ok none) = .error .unknownReturnType ∧
    (∀ e, StdConnector.GetNextSeqDecode (.error e) = .error e) ∧
    GoErr.message .unknownReturnType = "unknown return type" := by
  refine ⟨?_, rfl, fun o rest => rfl, fun n => rfl, fun n => rfl,
    fun q => rfl, rfl, rfl, fun e => rfl, rfl⟩
  simp [StdConnector.GetNextSeqRequest, h]

theorem c7_getnextseq_behavior_witness :
    StdConnector.GetNextSeqRequest ⟨some ("users")⟩ ("invoiceNr")
        ["Counters"] =
      .ok ⟨"Counters", "invoiceNr", "Current", 1, true, true, "Current"⟩ ∧
    StdConnector.GetNextSeqDecode (.ok (some (.i64 41))) = .ok 41 :=
  ⟨(c7_getnextseq_behavior ⟨some ("users")⟩ ("invoiceNr") ["Counters"]
      (by decide)).1,
   (c7_getnextseq_behavior ⟨some ("users")⟩ ("invoiceNr") ["Counters"]
      (by decide)).2.2.2.2.1 41⟩

/-- C1: for every wrapper type, encoding the empty/zero value produces
literal null in both the JSON and the BSON format, and decoding a null in
either format produces that same empty/zero value (for the types without a
custom decoder — NullString and the four number types — via the default
decoders: the BSON null decodes to the zero value outright, the JSON null
leaves the freshly zero destination untouched). -/
theorem c1_empty_value_null_roundtrip :
    ObjectId.MarshalJSON "" = .ok .null ∧
    ObjectId.MarshalBSONValue "" = .ok bsonNullValue ∧
    UUID.MarshalJSON "" = .ok .null ∧
    UUID.MarshalBSONValue "" = .ok bsonNullValue ∧
    NullString.MarshalJSON "" = .ok .null ∧
    NullString.MarshalBSONValue "" = .ok bsonNullValue ∧
    NullInt32.MarshalJSON 0 = .ok .null ∧
    NullInt32.MarshalBSONValue 0 = .ok bsonNullValue ∧
    NullInt64.MarshalJSON 0 = .ok .null ∧
    NullInt64.MarshalBSONValue 0 = .ok bsonNullValue ∧
    NullFloat32.MarshalJSON 0 = .ok .null ∧
    NullFloat32.MarshalBSONValue 0 = .ok bsonNullValue ∧
    NullFloat64.MarshalJSON 0 = .ok .null ∧
    NullFloat64.MarshalBSONValue 0 = .ok bsonNullValue ∧
    Binary.MarshalJSON [] = .ok .null ∧
    Binary.MarshalBSONValue [] = .ok bsonNullValue ∧
    (∀ d : ObjectId, ObjectId.UnmarshalJSON d .null = .ok "") ∧
    (∀ (d : ObjectId) (bs : List ℕ),
      ObjectId.UnmarshalBSONValue d bsonTypeNull bs = .ok "") ∧
    (∀ d : UUID, UUID.UnmarshalJSON d .null = .ok "") ∧
    (∀ (d : UUID) (v : BVal),
      UUID.UnmarshalBSONValue d bsonTypeNull v = .ok "") ∧
    (∀ d : Binary, Binary.UnmarshalJSON d .null = .ok []) ∧
    (∀ (d : Binary) (v : BVal),
      Binary.UnmarshalBSONValue d bsonTypeNull v = .ok []) ∧
    jsonUnmarshalNullString "" .null = .ok "" ∧
    (∀ (d : String) (v : BVal),
      bsonUnmarshalString d bsonTypeNull v = .ok "") ∧
    jsonUnmarshalInt32 0 .null = .ok 0 ∧
    (∀ (d : ℤ) (v : BVal), bsonUnmarshalInt32 d bsonTypeNull v = .ok 0) ∧
    jsonUnmarshalInt64 0 .null = .ok 0 ∧
    (∀ (d : ℤ) (v : BVal), bsonUnmarshalInt64 d bsonTypeNull v = .ok 0) ∧
    jsonUnmarshalFloat64 0 .null = .ok 0 ∧
    (∀ (d : ℚ) (v : BVal), bsonUnmarshalFloat64 d bsonTypeNull v = .ok 0) := by
  refine ⟨rfl, rfl, rfl, rfl, rfl, rfl, rfl, rfl, rfl, rfl, rfl, rfl, rfl,
    rfl, rfl, rfl, fun d => rfl, fun d bs => rfl, fun d => rfl,
    fun d v => rfl, fun d => rfl, fun d v => rfl, rfl, fun d v => rfl, rfl,
    fun d v => rfl, rfl, fun d v => rfl, rfl, fun d v => rfl⟩

/-- C3: BSON decoding of ObjectId, UUID and Binary rejects every type tag
that is not the expected one (wrong-type error), UUID and Binary reject a
binary value whose subtype byte is not the expected one with a distinct
wrong-subtype error, and a decode can only succeed on a null or on a value
with both the expected tag and the expected subtype — nothing is silently
coerced. -/
theorem c3_wrong_tag_and_subtype_rejected :
    (∀ (d : ObjectId) (typ : ℕ) (bs : List ℕ), typ ≠ bsonTypeNull →
      typ ≠ bsonTypeObjectID →
      ObjectId.UnmarshalBSONValue d typ bs = .err .wrongTypeObjectId d) ∧
    (∀ (d : UUID) (typ : ℕ) (v : BVal), typ ≠ bsonTypeNull →
      typ ≠ bsonTypeBinary →
      UUID.UnmarshalBSONValue d typ v = .err .wrongTypeBinary d) ∧
    (∀ (d : UUID) (sub : ℕ) (bs : List ℕ), sub ≠ binaryUUID →
      UUID.UnmarshalBSONValue d bsonTypeBinary (.bin sub bs) =
        .err .wrongSubtypeUuid d) ∧
    (∀ (d : Binary) (typ : ℕ) (v : BVal), typ ≠ bsonTypeNull →
      typ ≠ bsonTypeBinary →
      Binary.UnmarshalBSONValue d typ v = .err .wrongTypeBinary d) ∧
    (∀ (d : Binary) (sub : ℕ) (bs : List ℕ), sub ≠ binaryGeneric →
      Binary.UnmarshalBSONValue d bsonTypeBinary (.bin sub bs) =
        .err .wrongSubtypeGeneric d) ∧
    GoErr.wrongTypeBinary ≠ GoErr.wrongSubtypeUuid ∧
    GoErr.wrongTypeBinary ≠ GoErr.wrongSubtypeGeneric ∧
    GoErr.message .wrongTypeObjectId = "wrong bson type expected objectid" ∧
    GoErr.message .wrongTypeBinary = "wrong bson type expected binary" ∧
    GoErr.message .wrongSubtypeUuid = "wrong subtype" ∧
    GoErr.message .wrongSubtypeGeneric =
      "wrong bson subtype expected generic" ∧
    (∀ (d d' : ObjectId) (typ : ℕ) (bs : List ℕ),
      ObjectId.UnmarshalBSONValue d typ bs = .ok d' →
      typ = bsonTypeNull ∨ typ = bsonTypeObjectID) ∧
    (∀ (d d' : UUID) (typ : ℕ) (v : BVal),
      UUID.UnmarshalBSONValue d typ v = .ok d' →
      typ = bsonTypeNull ∨
        (typ = bsonTypeBinary ∧ ∃ bs, v = .bin binaryUUID bs)) ∧
    (∀ (d d' : Binary) (typ : ℕ) (v : BVal),
      Binary.UnmarshalBSONValue d typ v = .ok d' →
      typ = bsonTypeNull ∨
        (typ = bsonTypeBinary ∧ ∃ bs, v = .bin binaryGeneric bs)) := by
  refine ⟨?_, ?_, ?_, ?_, ?_, by decide, by decide, rfl, rfl, rfl, rfl,
    ?_, ?_, ?_⟩
  · intro d typ bs h10 h7
    simp [ObjectId.UnmarshalBSONValue, h10, h7]
  · intro d typ v h10 h5
    simp [UUID.UnmarshalBSONValue, h10, h5]
  · intro d sub bs hsub
    simp [UUID.UnmarshalBSONValue, bsonTypeBinary, bsonTypeNull, hsub]
  · intro d typ v h10 h5
    simp [Binary.UnmarshalBSONValue, h10, h5]
  · intro d sub bs hsub
    simp [Binary.UnmarshalBSONValue, bsonTypeBinary, bsonTypeNull, hsub]
  · intro d d' typ bs h
    by_cases h10 : typ = bsonTypeNull
    · exact Or.inl h10
    by_cases h7 : typ = bsonTypeObjectID
    · exact Or.inr h7
    simp [ObjectId.UnmarshalBSONValue, h10, h7] at h
  · intro d d' typ v h
    by_cases h10 : typ = bsonTypeNull
    · exact Or.inl h10
    by_cases h5 : typ = bsonTypeBinary
    · refine Or.inr ⟨h5, ?_⟩
      subst h5
      cases v with
      | bin sub bs =>
        by_cases hsub : sub = binaryUUID
        · exact ⟨bs, by rw [hsub]⟩
        · simp [UUID.UnmarshalBSONValue, bsonTypeBinary, bsonTypeNull,
            hsub] at h
      | bytes bs => simp [UUID.UnmarshalBSONValue, bsonTypeBinary,
          bsonTypeNull] at h
      | str s => simp [UUID.UnmarshalBSONValue, bsonTypeBinary,
          bsonTypeNull] at h
      | i32 n => simp [UUID.UnmarshalBSONValue, bsonTypeBinary,
          bsonTypeNull] at h
      | i64 n => simp [UUID.UnmarshalBSONValue, bsonTypeBinary,
          bsonTypeNull] at h
      | dbl x => simp [UUID.UnmarshalBSONValue, bsonTypeBinary,
          bsonTypeNull] at h
    · simp [UUID.UnmarshalBSONValue, h10, h5] at h
  · intro d d' typ v h
    by_cases h10 : typ = bsonTypeNull
    · exact Or.inl h10
    by_cases h5 : typ = bsonTypeBinary
    · refine Or.inr ⟨h5, ?_⟩
      subst h5
      cases v with
      | bin sub bs =>
        by_cases hsub : sub = binaryGeneric
        · exact ⟨bs, by rw [hsub]⟩
        · simp [Binary.UnmarshalBSONValue, bsonTypeBinary, bsonTypeNull,
            hsub] at h
      | bytes bs => simp [Binary.UnmarshalBSONValue, bsonTypeBinary,
          bsonTypeNull] at h
      | str s => simp [Binary.UnmarshalBSONValue, bsonTypeBinary,
          bsonTypeNull] at h
      | i32 n => simp [Binary.UnmarshalBSONValue, bsonTypeBinary,
          bsonTypeNull] at h
      | i64 n => simp [Binary.UnmarshalBSONValue, bsonTypeBinary,
          bsonTypeNull] at h
      | dbl x => simp [Binary.UnmarshalBSONValue, bsonTypeBinary,
          bsonTypeNull] at h
    · simp [Binary.UnmarshalBSONValue, h10, h5] at h

theorem c3_wrong_tag_and_subtype_rejected_witness :
    UUID.UnmarshalBSONValue ("") bsonTypeObjectID
        (.bin binaryUUID [1, 2, 3]) = .err .wrongTypeBinary ("") ∧
    UUID.UnmarshalBSONValue ("") bsonTypeBinary
        (.bin binaryGeneric [1, 2, 3]) = .err .wrongSubtypeUuid ("") ∧
    Binary.UnmarshalBSONValue [] bsonTypeString (.str ("foo")) =
      .err .wrongTypeBinary [] ∧
    Binary.UnmarshalBSONValue [] bsonTypeBinary (.bin binaryUUID [7]) =
      .err .wrongSubtypeGeneric [] ∧
    ObjectId.UnmarshalBSONValue ("") bsonTypeBinary [1] =
      .err .wrongTypeObjectId ("") :=
  ⟨(c3_wrong_tag_and_subtype_rejected).2.1 ("") bsonTypeObjectID
      (.bin binaryUUID [1, 2, 3]) (by decide) (by decide),
   (c3_wrong_tag_and_subtype_rejected).2.2.1 ("") binaryGeneric [1, 2, 3]
      (by decide),
   (c3_wrong_tag_and_subtype_rejected).2.2.2.1 [] bsonTypeString
      (.str ("foo")) (by decide) (by decide),
   (c3_wrong_tag_and_subtype_rejected).2.2.2.2.1 [] binaryUUID [7]
      (by decide),
   (c3_wrong_tag_and_subtype_rejected).1 ("") bsonTypeBinary [1]
      (by decide) (by decide)⟩

/-- C5: every custom decode of the wrapper types, in both formats, returns
its error as a value and leaves the destination at the value it held (no
partial write; the panicking object-id path writes nothing either); in
particular decoding the malformed hex "f47ac10b" as an identifier returns
the hex parse error and leaves the target unset. -/
theorem c5_error_is_value_destination_unchanged :
    (∀ (d d' : ObjectId) (j : Json) (e : GoErr),
      ObjectId.UnmarshalJSON d j = .err e d' → d' = d) ∧
    (∀ (d d' : ObjectId) (typ : ℕ) (bs : List ℕ) (e : GoErr),
      ObjectId.UnmarshalBSONValue d typ bs = .err e d' → d' = d) ∧
    (∀ (d d' : UUID) (j : Json) (e : GoErr),
      UUID.UnmarshalJSON d j = .err e d' → d' = d) ∧
    (∀ (d d' : UUID) (typ : ℕ) (v : BVal) (e : GoErr),
      UUID.UnmarshalBSONValue d typ v = .err e d' → d' = d) ∧
    (∀ (d d' : Binary) (j : Json) (e : GoErr),
      Binary.UnmarshalJSON d j = .err e d' → d' = d) ∧
    (∀ (d d' : Binary) (typ : ℕ) (v : BVal) (e : GoErr),
      Binary.UnmarshalBSONValue d typ v = .err e d' → d' = d) ∧
    ObjectId.UnmarshalJSON ("") (.str ("f47ac10b")) =
      .err .invalidHex ("") ∧
    GoErr.message .invalidHex =
      "the provided hex string is not a valid ObjectID" := by
  refine ⟨?_, ?_, ?_, ?_, ?_, ?_, by decide, rfl⟩
  · intro d d' j e h
    unfold ObjectId.UnmarshalJSON jsonUnmarshalString at h
    repeat' split at h
    all_goals simp_all
  · intro d d' typ bs e h
    unfold ObjectId.UnmarshalBSONValue at h
    repeat' split at h
    all_goals simp_all
  · intro d d' j e h
    cases j with
    | null => simp [UUID.UnmarshalJSON] at h
    | num q =>
      simp [UUID.UnmarshalJSON] at h
      exact h.2.symm
    | str s =>
      simp only [UUID.UnmarshalJSON] at h
      cases hp : (uuidParse ('"' :: (s.toList ++ ['"']))).2 with
      | some e2 =>
        rw [hp] at h
        simp at h
        exact h.2.symm
      | none =>
        rw [hp] at h
        simp at h
  · intro d d' typ v e h
    unfold UUID.UnmarshalBSONValue at h
    repeat' split at h
    all_goals simp_all
  · intro d d' j e h
    unfold Binary.UnmarshalJSON jsonUnmarshalString at h
    repeat' split at h
    all_goals simp_all
  · intro d d' typ v e h
    unfold Binary.UnmarshalBSONValue at h
    repeat' split at h
    all_goals simp_all

theorem c5_error_is_value_destination_unchanged_witness :
    ObjectId.UnmarshalJSON ("") (.str ("f47ac10b")) =
      .err .invalidHex ("") ∧
    ("abc" : String) = "abc" :=
  ⟨c5_error_is_value_destination_unchanged.2.2.2.2.2.2.1,
   c5_error_is_value_destination_unchanged.1 ("abc") ("abc")
      (.str ("f47ac10b")) .invalidHex (by decide)⟩

theorem fromHexChar_hexDigit {n : ℕ} (h : n < 16) :
    fromHexChar (hexDigit n) = some n := by
  have hall : ∀ m < 16, fromHexChar (hexDigit m) = some m := by decide
  exact hall n h

theorem hexChars_cons (b : ℕ) (bs : List ℕ) :
    hexChars (b :: bs) = hexDigit (b / 16) :: hexDigit (b % 16) :: hexChars bs :=
  rfl

theorem hexChars_length (bs : List ℕ) :
    (hexChars bs).length = 2 * bs.length := by
  induction bs with
  | nil => rfl
  | cons b rest ih =>
    rw [hexChars_cons]
    simp [ih]
    omega

theorem hexDecodeList_hexChars (bs : List ℕ) (h : ∀ b ∈ bs, b < 256) :
    hexDecodeList (hexChars bs) = .ok bs := by
  induction bs with
  | nil => rfl
  | cons b rest ih =>
    have hb : b < 256 := h b (List.mem_cons_self b rest)
    have h1 : fromHexChar (hexDigit (b / 16)) = some (b / 16) :=
      fromHexChar_hexDigit (by omega)
    have h2 : fromHexChar (hexDigit (b % 16)) = some (b % 16) :=
      fromHexChar_hexDigit (by omega)
    have h3 : hexDecodeList (hexChars rest) = .ok rest :=
      ih (fun x hx => h x (List.mem_cons_of_mem b hx))
    rw [hexChars_cons]
    simp only [hexDecodeList, h1, h2, h3]
    have : b / 16 * 16 + b % 16 = b := by omega
    rw [this]

theorem objectIDHex_length (bs : List ℕ) (h : bs.length = 12) :
    (objectIDHex bs).length = 24 := by
  show (hexChars bs).length = 24
  rw [hexChars_length, h]

theorem objectIDFromHexBytes_objectIDHex (bs : List ℕ) (h12 : bs.length = 12)
    (h : ∀ b ∈ bs, b < 256) :
    objectIDFromHexBytes (objectIDHex bs) = .ok bs := by
  unfold objectIDFromHexBytes
  rw [if_pos (objectIDHex_length bs h12)]
  show hexDecodeList (hexChars bs) = .ok bs
  exact hexDecodeList_hexChars bs h

theorem objectIDHex_eq_nil_iff (bs : List ℕ) (h12 : bs.length = 12)
    (h : ∀ b ∈ bs, b < 256) :
    objectIDHex bs = NilObjectID ↔ bs = List.replicate 12 0 := by
  constructor
  · intro he
    have h1 : objectIDFromHexBytes (objectIDHex bs) = .ok bs :=
      objectIDFromHexBytes_objectIDHex bs h12 h
    rw [he] at h1
    have h2 : objectIDFromHexBytes NilObjectID =
        .ok (List.replicate 12 0) := by decide
    rw [h1] at h2
    exact Except.ok.inj h2
  · intro he
    subst he
    decide

theorem xtob_hexByte {b : ℕ} (hb : b < 256) :
    xtob (hexDigit (b / 16)) (hexDigit (b % 16)) = some b := by
  unfold xtob
  rw [fromHexChar_hexDigit (by omega), fromHexChar_hexDigit (by omega)]
  show some (b / 16 * 16 + b % 16) = some b
  have hd : b / 16 * 16 + b % 16 = b := by omega
  rw [hd]

theorem uuidParsePairs_append (l t : List Char) (xs : List ℕ)
    (h : ∀ x ∈ xs, x + 1 < l.length) :
    uuidParsePairs (l ++ t) xs = uuidParsePairs l xs := by
  induction xs with
  | nil => rfl
  | cons x rest ih =>
    have hx : x + 1 < l.length := h x (List.mem_cons_self x rest)
    have g1 : (l ++ t).getD x ' ' = l.getD x ' ' := by
      rw [List.getD_eq_getElem?_getD, List.getD_eq_getElem?_getD,
        List.getElem?_append_left (by omega)]
    have g2 : (l ++ t).getD (x + 1) ' ' = l.getD (x + 1) ' ' := by
      rw [List.getD_eq_getElem?_getD, List.getD_eq_getElem?_getD,
        List.getElem?_append_left (by omega)]
    have ih2 := ih (fun y hy => h y (List.mem_cons_of_mem x hy))
    simp only [uuidParsePairs, g1, g2, ih2]

theorem uuidParseCore_uuidChars (bs : List ℕ) (h16 : bs.length = 16)
    (h : ∀ b ∈ bs, b < 256) :
    uuidParseCore (uuidChars bs) = (bs, none) := by
  obtain ⟨a0, a1, a2, a3, a4, a5, a6, a7, a8, a9, a10, a11, a12, a13, a14, a15, rfl⟩ :
      ∃ a0 a1 a2 a3 a4 a5 a6 a7 a8 a9 a10 a11 a12 a13 a14 a15,
        bs = [a0, a1, a2, a3, a4, a5, a6, a7, a8, a9, a10, a11, a12, a13, a14, a15] := by
    match bs, h16 with
    | [a0, a1, a2, a3, a4, a5, a6, a7, a8, a9, a10, a11, a12, a13, a14, a15], _ =>
      exact ⟨a0, a1, a2, a3, a4, a5, a6, a7, a8, a9, a10, a11, a12, a13, a14, a15, rfl⟩
  have hb0 : a0 < 256 := h a0 (by simp)
  have hb1 : a1 < 256 := h a1 (by simp)
  have hb2 : a2 < 256 := h a2 (by simp)
  have hb3 : a3 < 256 := h a3 (by simp)
  have hb4 : a4 < 256 := h a4 (by simp)
  have hb5 : a5 < 256 := h a5 (by simp)
  have hb6 : a6 < 256 := h a6 (by simp)
  have hb7 : a7 < 256 := h a7 (by simp)
  have hb8 : a8 < 256 := h a8 (by simp)
  have hb9 : a9 < 256 := h a9 (by simp)
  have hb10 : a10 < 256 := h a10 (by simp)
  have hb11 : a11 < 256 := h a11 (by simp)
  have hb12 : a12 < 256 := h a12 (by simp)
  have hb13 : a13 < 256 := h a13 (by simp)
  have hb14 : a14 < 256 := h a14 (by simp)
  have hb15 : a15 < 256 := h a15 (by simp)
  have e0 : xtob (hexDigit (a0 / 16)) (hexDigit (a0 % 16)) = some a0 :=
    xtob_hexByte hb0
  have e1 : xtob (hexDigit (a1 / 16)) (hexDigit (a1 % 16)) = some a1 :=
    xtob_hexByte hb1
  have e2 : xtob (hexDigit (a2 / 16)) (hexDigit (a2 % 16)) = some a2 :=
    xtob_hexByte hb2
  have e3 : xtob (hexDigit (a3 / 16)) (hexDigit (a3 % 16)) = some a3 :=
    xtob_hexByte hb3
  have e4 : xtob (hexDigit (a4 / 16)) (hexDigit (a4 % 16)) = some a4 :=
    xtob_hexByte hb4
  have e5 : xtob (hexDigit (a5 / 16)) (hexDigit (a5 % 16)) = some a5 :=
    xtob_hexByte hb5
  have e6 : xtob (hexDigit (a6 / 16)) (hexDigit (a6 % 16)) = some a6 :=
    xtob_hexByte hb6
  have e7 : xtob (hexDigit (a7 / 16)) (hexDigit (a7 % 16)) = some a7 :=
    xtob_hexByte hb7
  have e8 : xtob (hexDigit (a8 / 16)) (hexDigit (a8 % 16)) = some a8 :=
    xtob_hexByte hb8
  have e9 : xtob (hexDigit (a9 / 16)) (hexDigit (a9 % 16)) = some a9 :=
    xtob_hexByte hb9
  have e10 : xtob (hexDigit (a10 / 16)) (hexDigit (a10 % 16)) = some a10 :=
    xtob_hexByte hb10
  have e11 : xtob (hexDigit (a11 / 16)) (hexDigit (a11 % 16)) = some a11 :=
    xtob_hexByte hb11
  have e12 : xtob (hexDigit (a12 / 16)) (hexDigit (a12 % 16)) = some a12 :=
    xtob_hexByte hb12
  have e13 : xtob (hexDigit (a13 / 16)) (hexDigit (a13 % 16)) = some a13 :=
    xtob_hexByte hb13
  have e14 : xtob (hexDigit (a14 / 16)) (hexDigit (a14 % 16)) = some a14 :=
    xtob_hexByte hb14
  have e15 : xtob (hexDigit (a15 / 16)) (hexDigit (a15 % 16)) = some a15 :=
    xtob_hexByte hb15
  simp only [uuidChars, hexByte, List.cons_append, List.nil_append]
  simp only [uuidParseCore, uuidIndices, uuidParsePairs,
    List.getD_cons_zero, List.getD_cons_succ, e0, e1, e2, e3, e4, e5, e6, e7, e8, e9, e10, e11, e12, e13, e14, e15]
  simp


theorem uuidChars_length36 (bs : List ℕ) (h16 : bs.length = 16) :
    (uuidChars bs).length = 36 :=
  uuidString_length_of_sixteen bs h16

theorem uuidParse_uuidChars (bs : List ℕ) (h16 : bs.length = 16)
    (h : ∀ b ∈ bs, b < 256) :
    uuidParse (uuidChars bs) = (bs, none) := by
  unfold uuidParse
  rw [if_pos (uuidChars_length36 bs h16)]
  exact uuidParseCore_uuidChars bs h16 h

theorem uuidParseCore_append (l t : List Char) (hl : 36 ≤ l.length) :
    uuidParseCore (l ++ t) = uuidParseCore l := by
  have hb : ∀ x ∈ uuidIndices, x + 1 < 36 := by decide
  have hp : uuidParsePairs (l ++ t) uuidIndices =
      uuidParsePairs l uuidIndices :=
    uuidParsePairs_append l t uuidIndices
      (fun x hx => lt_of_lt_of_le (hb x hx) hl)
  have g8 : (l ++ t).getD 8 ' ' = l.getD 8 ' ' := by
    rw [List.getD_eq_getElem?_getD, List.getD_eq_getElem?_getD,
      List.getElem?_append_left (by omega)]
  have g13 : (l ++ t).getD 13 ' ' = l.getD 13 ' ' := by
    rw [List.getD_eq_getElem?_getD, List.getD_eq_getElem?_getD,
      List.getElem?_append_left (by omega)]
  have g18 : (l ++ t).getD 18 ' ' = l.getD 18 ' ' := by
    rw [List.getD_eq_getElem?_getD, List.getD_eq_getElem?_getD,
      List.getElem?_append_left (by omega)]
  have g23 : (l ++ t).getD 23 ' ' = l.getD 23 ' ' := by
    rw [List.getD_eq_getElem?_getD, List.getD_eq_getElem?_getD,
      List.getElem?_append_left (by omega)]
  unfold uuidParseCore
  rw [g8, g13, g18, g23, hp]

theorem uuidParse_quoted (bs : List ℕ) (h16 : bs.length = 16)
    (h : ∀ b ∈ bs, b < 256) :
    uuidParse ('"' :: (uuidChars bs ++ ['"'])) = (bs, none) := by
  have hlen : (uuidChars bs).length = 36 := uuidChars_length36 bs h16
  have hlen2 : ('"' :: (uuidChars bs ++ ['"'])).length = 38 := by
    simp [hlen]
  unfold uuidParse
  simp only [hlen2]
  norm_num
  rw [uuidParseCore_append _ _ (by omega)]
  exact uuidParseCore_uuidChars bs h16 h

theorem b64Index_b64Char {n : ℕ} (h : n < 64) :
    b64Index (b64Char n) = some n := by
  have hall : ∀ m < 64, b64Index (b64Char m) = some m := by decide
  exact hall n h

theorem b64Char_ne_pad {n : ℕ} (h : n < 64) : b64Char n ≠ '=' := by
  have hall : ∀ m < 64, b64Char m ≠ '=' := by decide
  exact hall n h

theorem b64decode_b64encode (bs : List ℕ) (h : ∀ b ∈ bs, b < 256) :
    b64decode (b64encode bs) = some bs := by
  induction bs using b64encode.induct with
  | case1 => rfl
  | case2 a =>
    have ha : a < 256 := h a (by simp)
    have i1 : b64Index (b64Char (a / 4)) = some (a / 4) :=
      b64Index_b64Char (by omega)
    have i2 : b64Index (b64Char (a % 4 * 16)) = some (a % 4 * 16) :=
      b64Index_b64Char (by omega)
    simp [b64encode, b64decode, i1, i2]
    all_goals omega
  | case3 a b =>
    have ha : a < 256 := h a (by simp)
    have hb : b < 256 := h b (by simp)
    have i1 : b64Index (b64Char (a / 4)) = some (a / 4) :=
      b64Index_b64Char (by omega)
    have i2 : b64Index (b64Char (a % 4 * 16 + b / 16)) =
        some (a % 4 * 16 + b / 16) := b64Index_b64Char (by omega)
    have i3 : b64Index (b64Char (b % 16 * 4)) = some (b % 16 * 4) :=
      b64Index_b64Char (by omega)
    have hpad : b64Char (b % 16 * 4) ≠ '=' := b64Char_ne_pad (by omega)
    simp [b64encode, b64decode, i1, i2, i3, hpad]
    all_goals omega
  | case4 a b c rest ih =>
    have ha : a < 256 := h a (by simp)
    have hb : b < 256 := h b (by simp)
    have hc : c < 256 := h c (by simp)
    have hih : b64decode (b64encode rest) = some rest :=
      ih (fun x hx => h x (by simp [hx]))
    have i1 : b64Index (b64Char (a / 4)) = some (a / 4) :=
      b64Index_b64Char (by omega)
    have i2 : b64Index (b64Char (a % 4 * 16 + b / 16)) =
        some (a % 4 * 16 + b / 16) := b64Index_b64Char (by omega)
    have i3 : b64Index (b64Char (b % 16 * 4 + c / 64)) =
        some (b % 16 * 4 + c / 64) := b64Index_b64Char (by omega)
    have i4 : b64Index (b64Char (c % 64)) = some (c % 64) :=
      b64Index_b64Char (by omega)
    have hp3 : b64Char (b % 16 * 4 + c / 64) ≠ '=' := b64Char_ne_pad (by omega)
    have hp4 : b64Char (c % 64) ≠ '=' := b64Char_ne_pad (by omega)
    simp [b64encode, b64decode, i1, i2, i3, i4, hih, hp3, hp4]
    all_goals omega

theorem b64encode_ne_nil (bs : List ℕ) (h : bs ≠ []) :
    b64encode bs ≠ [] := by
  match bs, h with
  | [a], _ => simp [b64encode]
  | [a, b], _ => simp [b64encode]
  | a :: b :: c :: rest, _ => simp [b64encode]

/-- C2 (counterexample): the NullFloat32 wrapper does not round-trip: the
legal non-null value 16777217 (2^24 + 1, exactly representable at double
width, where the type stores its value) is narrowed to float32 on encode,
so the BSON round-trip returns 16777216. -/
theorem c2_roundtrip_counterexample :
    NullFloat32.MarshalBSONValue 16777217 =
      .ok (bsonTypeDouble, .dbl (some 16777216)) ∧
    bsonUnmarshalFloat64 0 bsonTypeDouble (.dbl (some 16777216)) =
      .ok 16777216 ∧
    (16777216 : ℚ) ≠ 16777217 := by
  refine ⟨by decide, by decide, by decide⟩

/-- C2 (amended): for ObjectId, UUID, NullString, NullInt32, NullInt64,
NullFloat64 and Binary, decoding the encoding of any non-null legal value
(identifiers and UUIDs in their canonical rendering, numbers in range,
float64 values representable at double precision) yields the value again in
both the JSON and the BSON format.  NullFloat32 is excluded: its value is
stored at double width but narrowed to 32 bits on encode, so its BSON
round-trip returns the round-to-nearest float32 of the stored value — the
identity exactly on 32-bit-representable values — and its JSON round-trip
re-reads the printed float32 at 64-bit width, which is likewise not the
identity. -/
theorem c2_roundtrip_amended
    (ob : List ℕ) (hob : ob.length = 12) (hob256 : ∀ b ∈ ob, b < 256)
    (hobz : ob ≠ List.replicate 12 0)
    (ub : List ℕ) (hub : ub.length = 16) (hub256 : ∀ b ∈ ub, b < 256)
    (s : NullString) (hs : s.length ≠ 0)
    (n32 : NullInt32) (h32 : n32 ≠ 0)
    (h32r : -(2 ^ 31) ≤ n32 ∧ n32 < 2 ^ 31)
    (n64 : NullInt64) (h64 : n64 ≠ 0)
    (h64r : -(2 ^ 63) ≤ n64 ∧ n64 < 2 ^ 63)
    (q64 : NullFloat64) (hq64 : q64 ≠ 0) (hq64f : roundF64 q64 = some q64)
    (q32 : NullFloat32) (hq32 : q32 ≠ 0) (w : ℚ) (hw : roundF32 q32 = some w)
    (bb : Binary) (hbb : bb ≠ []) (hbb256 : ∀ b ∈ bb, b < 256) :
    ObjectId.MarshalJSON (objectIDHex ob) = .ok (.str (objectIDHex ob)) ∧
    (∀ d, ObjectId.UnmarshalJSON d (.str (objectIDHex ob)) =
      .ok (objectIDHex ob)) ∧
    ObjectId.MarshalBSONValue (objectIDHex ob) =
      .ok (bsonTypeObjectID, .bytes ob) ∧
    (∀ d, ObjectId.UnmarshalBSONValue d bsonTypeObjectID ob =
      .ok (objectIDHex ob)) ∧
    UUID.MarshalJSON (uuidString ub) = .ok (.str (uuidString ub)) ∧
    (∀ d, UUID.UnmarshalJSON d (.str (uuidString ub)) =
      .ok (uuidString ub)) ∧
    UUID.MarshalBSONValue (uuidString ub) =
      .ok (bsonTypeBinary, .bin binaryUUID ub) ∧
    (∀ d, UUID.UnmarshalBSONValue d bsonTypeBinary (.bin binaryUUID ub) =
      .ok (uuidString ub)) ∧
    NullString.MarshalJSON s = .ok (.str s) ∧
    (∀ d, jsonUnmarshalNullString d (.str s) = .ok s) ∧
    NullString.MarshalBSONValue s = .ok (bsonTypeString, .str s) ∧
    (∀ d, bsonUnmarshalString d bsonTypeString (.str s) = .ok s) ∧
    NullInt32.MarshalJSON n32 = .ok (.num (n32 : ℚ)) ∧
    (∀ d, jsonUnmarshalInt32 d (.num (n32 : ℚ)) = .ok n32) ∧
    NullInt32.MarshalBSONValue n32 = .ok (bsonTypeInt32, .i32 n32) ∧
    (∀ d, bsonUnmarshalInt32 d bsonTypeInt32 (.i32 n32) = .ok n32) ∧
    NullInt64.MarshalJSON n64 = .ok (.num (n64 : ℚ)) ∧
    (∀ d, jsonUnmarshalInt64 d (.num (n64 : ℚ)) = .ok n64) ∧
    NullInt64.MarshalBSONValue n64 = .ok (bsonTypeInt64, .i64 n64) ∧
    (∀ d, bsonUnmarshalInt64 d bsonTypeInt64 (.i64 n64) = .ok n64) ∧
    NullFloat64.MarshalJSON q64 = .ok (.num q64) ∧
    (∀ d, jsonUnmarshalFloat64 d (.num q64) = .ok q64) ∧
    NullFloat64.MarshalBSONValue q64 = .ok (bsonTypeDouble, .dbl (some q64)) ∧
    (∀ d, bsonUnmarshalFloat64 d bsonTypeDouble (.dbl (some q64)) =
      .ok q64) ∧
    NullFloat32.MarshalBSONValue q32 = .ok (bsonTypeDouble, .dbl (some w)) ∧
    (∀ d, bsonUnmarshalFloat64 d bsonTypeDouble (.dbl (some w)) = .ok w) ∧
    Binary.MarshalJSON bb = .ok (.str (String.mk (b64encode bb))) ∧
    (∀ d, Binary.UnmarshalJSON d (.str (String.mk (b64encode bb))) =
      .ok bb) ∧
    Binary.MarshalBSONValue bb = .ok (bsonTypeBinary, .bin binaryGeneric bb) ∧
    (∀ d, Binary.UnmarshalBSONValue d bsonTypeBinary
      (.bin binaryGeneric bb) = .ok bb) := by
  have holen : (objectIDHex ob).length = 24 := objectIDHex_length ob hob
  have hone : objectIDHex ob ≠ "" := by
    intro he
    rw [he] at holen
    simp at holen
  have honil : objectIDHex ob ≠ NilObjectID := by
    intro he
    exact hobz ((objectIDHex_eq_nil_iff ob hob hob256).mp he)
  have hparse : objectIDFromHexBytes (objectIDHex ob) = .ok ob :=
    objectIDFromHexBytes_objectIDHex ob hob hob256
  have hulen : (uuidString ub).length = 36 :=
    uuidString_length_of_sixteen ub hub
  have huz : UUID.IsZero (uuidString ub) = false := by
    simp only [UUID.IsZero, beq_eq_false_iff_ne, ne_eq, hulen]
    omega
  have huparse : uuidParse (uuidChars ub) = (ub, none) :=
    uuidParse_uuidChars ub hub hub256
  have huq : uuidParse ('"' :: (uuidChars ub ++ ['"'])) = (ub, none) :=
    uuidParse_quoted ub hub hub256
  have hblen : (b64encode bb).length ≠ 0 := by
    intro he
    exact b64encode_ne_nil bb hbb (List.length_eq_zero.mp he)
  have hb64 : b64decode (b64encode bb) = some bb := b64decode_b64encode bb hbb256
  have hbbl : bb.length ≠ 0 := by
    intro he
    exact hbb (List.length_eq_zero.mp he)
  refine ⟨?_, ?_, ?_, ?_, ?_, ?_, ?_, ?_, ?_, ?_, ?_, ?_, ?_, ?_, ?_, ?_,
    ?_, ?_, ?_, ?_, ?_, ?_, ?_, ?_, ?_, ?_, ?_, ?_, ?_, ?_⟩
  · simp [ObjectId.MarshalJSON, hone, honil, holen]
  · intro d
    simp [ObjectId.UnmarshalJSON, jsonUnmarshalString, hparse, holen]
  · simp [ObjectId.MarshalBSONValue, holen, hparse, hobz]
    exact fun h2 =>
      absurd (h2.trans
        (by decide : ([0, 0, 0, 0, 0, 0, 0, 0, 0, 0, 0, 0] : List ℕ) =
          List.replicate 12 0)) hobz
  · intro d
    have ht : ob.take 12 = ob := by
      rw [← hob]
      exact List.take_length ob
    simp [ObjectId.UnmarshalBSONValue, bsonTypeObjectID, bsonTypeNull, hob,
      ht]
  · simp [UUID.MarshalJSON, huz]
  · intro d
    have : (uuidString ub).toList = uuidChars ub := rfl
    simp only [UUID.UnmarshalJSON, this, huq]
  · simp only [UUID.MarshalBSONValue, huz, Bool.false_eq_true, if_false]
    have : (uuidString ub).toList = uuidChars ub := rfl
    rw [this, huparse]
  · intro d
    simp [UUID.UnmarshalBSONValue, bsonTypeBinary, bsonTypeNull, binaryUUID,
      hub]
  · simp [NullString.MarshalJSON, hs]
  · intro d
    rfl
  · simp [NullString.MarshalBSONValue, hs]
  · intro d
    rfl
  · simp [NullInt32.MarshalJSON, h32]
  · intro d
    simp [jsonUnmarshalInt32, Rat.den_intCast, Rat.num_intCast, h32r.1,
      h32r.2]
    constructor
    · linarith [h32r.1]
    · linarith [h32r.2]
  · simp [NullInt32.MarshalBSONValue, h32]
  · intro d
    rfl
  · simp [NullInt64.MarshalJSON, h64]
  · intro d
    simp [jsonUnmarshalInt64, Rat.den_intCast, Rat.num_intCast]
    constructor
    · linarith [h64r.1]
    · linarith [h64r.2]
  · simp [NullInt64.MarshalBSONValue, h64]
  · intro d
    rfl
  · simp [NullFloat64.MarshalJSON, hq64]
  · intro d
    simp [jsonUnmarshalFloat64, hq64f]
  · simp [NullFloat64.MarshalBSONValue, hq64]
  · intro d
    rfl
  · simp [NullFloat32.MarshalBSONValue, hq32, hw]
  · intro d
    rfl
  · simp [Binary.MarshalJSON, hbbl]
  · intro d
    have : (String.mk (b64encode bb)).toList = b64encode bb := rfl
    simp [Binary.UnmarshalJSON, jsonUnmarshalString, this, hb64, hblen]
  · simp [Binary.MarshalBSONValue, hbbl]
  · intro d
    rfl

theorem c2_roundtrip_amended_witness :
    UUID.UnmarshalBSONValue ("") bsonTypeBinary
        (.bin binaryUUID
          [244, 122, 193, 11, 88, 204, 3, 114, 133, 103, 14, 2, 178, 195,
            212, 121]) =
      .ok (uuidString
        [244, 122, 193, 11, 88, 204, 3, 114, 133, 103, 14, 2, 178, 195,
          212, 121]) ∧
    jsonUnmarshalInt32 0 (.num ((2147483647 : ℤ) : ℚ)) = .ok 2147483647 ∧
    Binary.UnmarshalJSON [] (.str (String.mk (b64encode [77, 97, 110]))) =
      .ok [77, 97, 110] := by
  have H := c2_roundtrip_amended
    [101, 85, 210, 204, 79, 206, 73, 244, 100, 194, 246, 131]
    (by decide) (by decide) (by decide)
    [244, 122, 193, 11, 88, 204, 3, 114, 133, 103, 14, 2, 178, 195, 212,
      121]
    (by decide) (by decide)
    ("foo") (by decide)
    2147483647 (by decide) (by decide)
    9223372036854775807 (by decide) (by decide)
    (3 / 2) (by decide) (by decide)
    (3 / 2) (by decide) (3 / 2) (by decide)
    [77, 97, 110] (by decide) (by decide)
  obtain ⟨h1, h2, h3, h4, h5, h6, h7, h8, h9, h10, h11, h12, h13, h14, h15,
    h16, h17, h18, h19, h20, h21, h22, h23, h24, h25, h26, h27, h28, h29,
    h30⟩ := H
  exact ⟨h8 (""), h14 0, h28 []⟩
